import Mathlib

/-!
Shallow embedding of `symbol_store_server.py` (SignalZeroMCP).

The server is a protocol adapter: it exposes four remote HTTP operations as
MCP tools.  We model parsed JSON values (what `response.json()` and the
`arguments` mapping hold) as the inductive `Json`; Python `None` is
`Json.null`.  The network round trip performed by `SymbolStoreClient._request`
is modelled by an oracle `remote : Request → Except HttpError Json`: the
client-side code under verification only builds the `Request` (method, path,
query params, body) and consumes the outcome.  Python exceptions that the
dispatcher does not catch (`KeyError` from `arguments["id"]` etc.) are the
`Except` error channel of `call_tool`; the caught `httpx.HTTPStatusError` is
the error channel of the oracle.
-/

/-- Parsed JSON values (Python objects produced by `json` / `yaml.safe_load`).
Objects keep their key order, as Python dicts do. -/
inductive Json where
  | null : Json
  | bool (b : Bool) : Json
  | num (n : Int) : Json
  | str (s : String) : Json
  | arr (xs : List Json) : Json
  | obj (kvs : List (String × Json)) : Json

/-- Python truthiness (`if data:`) of a parsed-JSON value: `None`, `False`,
`0`, `""`, `[]` and `{}` are falsy, everything else truthy. -/
def Json.isTruthy : Json → Bool
  | .null => false
  | .bool b => b
  | .num n => n != 0
  | .str s => s ≠ ""
  | .arr xs => !xs.isEmpty
  | .obj kvs => !kvs.isEmpty

/-- `value is None` test used by the query-parameter filter. -/
def Json.isNull : Json → Bool
  | .null => true
  | _ => false

/-- Python repr of one character inside a single-quoted string repr:
backslash, the quote character and the common control characters are
escaped; other characters are kept. -/
def pyReprStrChar (c : Char) : String :=
  if c = Char.ofNat 92 then "\\\\"
  else if c = Char.ofNat 39 then "\\\x27"
  else if c = Char.ofNat 10 then "\\n"
  else if c = Char.ofNat 13 then "\\r"
  else if c = Char.ofNat 9 then "\\t"
  else String.singleton c

/-- Python `repr` of a string (single-quoted form). -/
def pyReprStr (s : String) : String :=
  "\x27" ++ (s.data.foldr (fun c acc => pyReprStrChar c ++ acc) "") ++ "\x27"

mutual

/-- Python `repr` of a parsed-JSON value. -/
def pyRepr : Json → String
  | .null => "None"
  | .bool true => "True"
  | .bool false => "False"
  | .num n => toString n
  | .str s => pyReprStr s
  | .arr xs => "[" ++ pyReprList xs ++ "]"
  | .obj kvs => "\x7b" ++ pyReprObj kvs ++ "\x7d"

/-- Comma-separated reprs of list elements. -/
def pyReprList : List Json → String
  | [] => ""
  | [x] => pyRepr x
  | x :: y :: xs => pyRepr x ++ ", " ++ pyReprList (y :: xs)

/-- Comma-separated `key: value` reprs of dict items. -/
def pyReprObj : List (String × Json) → String
  | [] => ""
  | [(k, v)] => pyReprStr k ++ ": " ++ pyRepr v
  | (k, v) :: p :: kvs => pyReprStr k ++ ": " ++ pyRepr v ++ ", " ++ pyReprObj (p :: kvs)

end

/-- Python `str()` of a parsed-JSON value, as used by f-string interpolation
(`f"Stored symbol {symbol_id}:"`, `f"/symbol/{symbol_id}"`). `str` of a
string is the string itself; other values use their repr-based str. -/
def pyStr : Json → String
  | .str s => s
  | v => pyRepr v

/-- `arguments.get(key)`: Python `dict.get` returns `None` when the key is
absent, and JSON null arrives in Python as `None` as well. -/
def pyGet (args : List (String × Json)) (key : String) : Json :=
  (args.lookup key).getD Json.null

/-- The data `httpx.HTTPStatusError` carries and `call_tool` reads back:
`exc.request.method`, `exc.request.url`, `exc.response.status_code`,
`exc.response.text`. -/
structure HttpError where
  method : String
  url : String
  status : Nat
  body : String

/-- The HTTP request a `SymbolStoreClient` method hands to
`httpx.AsyncClient.request`: method, path, query params, optional JSON body. -/
structure Request where
  method : String
  path : String
  params : List (String × Json)
  body : Option Json

/-- Uncaught Python exceptions of the dispatcher. -/
inductive PyErr where
  | keyError (k : String)
  | typeError
  | attributeError
deriving DecidableEq

/-- `mcp.types.TextContent(type="text", text=...)`. -/
structure TextContent where
  type : String
  text : String

namespace SymbolStoreClient

/-- The query-parameter dict built by `SymbolStoreClient.query_symbols`:
the four candidate entries in literal order, keeping exactly those whose
value `is not None`. -/
def query_symbols_params (symbol_domain symbol_tag last_symbol_id limit : Json) :
    List (String × Json) :=
  ([("symbol_domain", symbol_domain),
    ("symbol_tag", symbol_tag),
    ("last_symbol_id", last_symbol_id),
    ("limit", limit)]).filter (fun kv => !kv.2.isNull)

/-- Request issued by `query_symbols`: `GET /symbol` with the filtered
params. -/
def query_symbols (symbol_domain symbol_tag last_symbol_id limit : Json) : Request :=
  ⟨"GET", "/symbol", query_symbols_params symbol_domain symbol_tag last_symbol_id limit, none⟩

/-- Request issued by `get_symbol`: `GET /symbol/{symbol_id}`. -/
def get_symbol (symbol_id : String) : Request :=
  ⟨"GET", "/symbol/" ++ symbol_id, [], none⟩

/-- Request issued by `put_symbol`: `PUT /save_symbol/{symbol_id}` with JSON
body. -/
def put_symbol (symbol_id : String) (payload : Json) : Request :=
  ⟨"PUT", "/save_symbol/" ++ symbol_id, [], some payload⟩

/-- Request issued by `list_domains`: `GET /domains`. -/
def list_domains : Request :=
  ⟨"GET", "/domains", [], none⟩

end SymbolStoreClient

/-! ## `format_json_payload`: `json.dumps(payload, indent=2, ensure_ascii=False)` -/

/-- One character of a JSON string literal under `ensure_ascii=False`:
only backslash, double quote and control characters (< 0x20) are escaped;
every other character — in particular every non-ASCII character — is
emitted literally. -/
def jsonEscapeChar (c : Char) : String :=
  if c = Char.ofNat 92 then "\\\\"
  else if c = Char.ofNat 34 then "\\\""
  else if c = Char.ofNat 10 then "\\n"
  else if c = Char.ofNat 9 then "\\t"
  else if c = Char.ofNat 13 then "\\r"
  else if c = Char.ofNat 8 then "\\b"
  else if c = Char.ofNat 12 then "\\f"
  else if c.toNat < 32 then
    "\\u00" ++ String.singleton (Nat.digitChar (c.toNat / 16)) ++
      String.singleton (Nat.digitChar (c.toNat % 16))
  else String.singleton c

/-- JSON string literal: quote, escaped characters in order, quote. -/
def jsonQuote (s : String) : String :=
  "\"" ++ (s.data.foldr (fun c acc => jsonEscapeChar c ++ acc) "") ++ "\""

/-- `'  ' * level`: the indentation prefix at a nesting level, two spaces
per level (`indent=2`). -/
def indentStr : Nat → String
  | 0 => ""
  | n + 1 => indentStr n ++ "  "

mutual

/-- `json.dumps(·, indent=2, ensure_ascii=False)` of a value at a nesting
level. -/
def dumpVal (lvl : Nat) : Json → String
  | .null => "null"
  | .bool true => "true"
  | .bool false => "false"
  | .num n => toString n
  | .str s => jsonQuote s
  | .arr xs => dumpArr lvl xs
  | .obj kvs => dumpObj lvl kvs

/-- Array serialization: `[]` when empty, else each element on its own
indented line. -/
def dumpArr (lvl : Nat) : List Json → String
  | [] => "[]"
  | x :: xs =>
      "[\n" ++ indentStr (lvl + 1) ++ dumpVal (lvl + 1) x ++
        dumpArrRest (lvl + 1) xs ++ "\n" ++ indentStr lvl ++ "]"

/-- Remaining array elements, each preceded by the item separator `,` and a
fresh indented line. -/
def dumpArrRest (lvl : Nat) : List Json → String
  | [] => ""
  | x :: xs => ",\n" ++ indentStr lvl ++ dumpVal lvl x ++ dumpArrRest lvl xs

/-- Object serialization: `\x7b\x7d` when empty, else each `"key": value`
item on its own indented line, keys in dict order. -/
def dumpObj (lvl : Nat) : List (String × Json) → String
  | [] => "\x7b\x7d"
  | (k, v) :: kvs =>
      "\x7b\n" ++ indentStr (lvl + 1) ++ jsonQuote k ++ ": " ++ dumpVal (lvl + 1) v ++
        dumpObjRest (lvl + 1) kvs ++ "\n" ++ indentStr lvl ++ "\x7d"

/-- Remaining object items, each preceded by the item separator `,` and a
fresh indented line. -/
def dumpObjRest (lvl : Nat) : List (String × Json) → String
  | [] => ""
  | (k, v) :: kvs =>
      ",\n" ++ indentStr lvl ++ jsonQuote k ++ ": " ++ dumpVal lvl v ++ dumpObjRest lvl kvs

end

/-- `format_json_payload(payload)`: `json.dumps(payload, indent=2,
ensure_ascii=False)`. -/
def format_json_payload (payload : Json) : String :=
  dumpVal 0 payload

/-! ## Dispatcher: `call_tool` -/

/-- The text built by the `except httpx.HTTPStatusError` handler. -/
def httpErrorText (e : HttpError) : String :=
  "Request to " ++ e.method ++ " " ++ e.url ++ " failed with status " ++
    toString e.status ++ ": " ++ e.body

/-- `call_tool(name, arguments)`.  `remote` is the outcome of the single
HTTP round trip for a given request: `Except.error` when the remote
responded non-2xx (`raise_for_status`), `Except.ok` with the parsed JSON
body otherwise.  The `Except PyErr` layer is the uncaught-exception channel:
`arguments["id"]` etc. raise `KeyError` when the key is missing, and the
`try` block only catches `httpx.HTTPStatusError`. -/
def call_tool (remote : Request → Except HttpError Json)
    (name : String) (arguments : List (String × Json)) :
    Except PyErr (List TextContent) :=
  let tryBlock : Except PyErr (Except HttpError String) :=
    if name = "query_symbols" then
      .ok (match remote (SymbolStoreClient.query_symbols
              (pyGet arguments "symbol_domain")
              (pyGet arguments "symbol_tag")
              (pyGet arguments "last_symbol_id")
              (pyGet arguments "limit")) with
        | .error e => .error e
        | .ok data =>
            .ok ((if data.isTruthy then "Query results" else "No symbols returned") ++
              ":\n" ++ format_json_payload data))
    else if name = "get_symbol_by_id" then
      match arguments.lookup "id" with
      | none => .error (.keyError "id")
      | some idv =>
          .ok (match remote (SymbolStoreClient.get_symbol (pyStr idv)) with
            | .error e => .error e
            | .ok data => .ok (format_json_payload data))
    else if name = "put_symbol_by_id" then
      match arguments.lookup "symbol_id" with
      | none => .error (.keyError "symbol_id")
      | some sidv =>
          match arguments.lookup "symbol" with
          | none => .error (.keyError "symbol")
          | some symv =>
              .ok (match remote (SymbolStoreClient.put_symbol (pyStr sidv) symv) with
                | .error e => .error e
                | .ok data =>
                    .ok ("Stored symbol " ++ pyStr sidv ++ ":\n" ++
                      format_json_payload data))
    else if name = "list_domains" then
      .ok (match remote SymbolStoreClient.list_domains with
        | .error e => .error e
        | .ok data => .ok ("Available domains:\n" ++ format_json_payload data))
    else
      .ok (.ok ("Unknown tool: " ++ name))
  match tryBlock with
  | .error pe => .error pe
  | .ok (.error e) => .ok [⟨"text", httpErrorText e⟩]
  | .ok (.ok text) => .ok [⟨"text", text⟩]

/-! ## Tool catalog: `build_tools_from_spec` -/

/-- `mcp.types.Tool(name=..., description=..., inputSchema=...)`.  The
description is whatever Python value the spec lookup produced. -/
structure Tool where
  name : String
  description : Json
  inputSchema : Json

/-- Python subscript `j[k]` on a parsed mapping: `KeyError` when the key is
missing, `TypeError` when `j` is not a dict. -/
def pyIndex (j : Json) (k : String) : Except PyErr Json :=
  match j with
  | .obj kvs =>
      match kvs.lookup k with
      | some v => .ok v
      | none => .error (.keyError k)
  | _ => .error .typeError

/-- Python `j.get(k, default)` on a parsed mapping: `AttributeError` when
`j` is not a dict. -/
def pyGetD (j : Json) (k : String) (default : Json) : Except PyErr Json :=
  match j with
  | .obj kvs => .ok ((kvs.lookup k).getD default)
  | _ => .error .attributeError

/-- `build_tools_from_spec(spec)`: the four `Tool` literals in source order.
Each description is `spec["paths"][path][op].get("summary", default)`, and
the `put` tool copies `spec["components"]["schemas"]["Symbol"]` into its
input schema; any missing path raises (Except error). -/
def build_tools_from_spec (spec : Json) : Except PyErr (List Tool) := do
  let paths ← pyIndex spec "paths"
  let d1 ← pyGetD (← pyIndex (← pyIndex paths "/symbol") "get")
    "summary" (Json.str "Query symbols")
  let d2 ← pyGetD (← pyIndex (← pyIndex paths "/symbol/\x7bid\x7d") "get")
    "summary" (Json.str "Get symbol by ID")
  let d3 ← pyGetD (← pyIndex (← pyIndex paths "/save_symbol/\x7bsymbol_id\x7d") "put")
    "summary" (Json.str "Save symbol")
  let symbolSchema ← pyIndex (← pyIndex (← pyIndex spec "components") "schemas") "Symbol"
  let d4 ← pyGetD (← pyIndex (← pyIndex paths "/domains") "get")
    "summary" (Json.str "List symbol domains")
  pure
    [⟨"query_symbols", d1,
      Json.obj [("type", Json.str "object"),
        ("properties", Json.obj
          [("symbol_domain", Json.obj [("type", Json.str "string"),
              ("description", Json.str "Filter by domain")]),
           ("symbol_tag", Json.obj [("type", Json.str "string"),
              ("description", Json.str "Filter by tag")]),
           ("last_symbol_id", Json.obj [("type", Json.str "string"),
              ("description", Json.str "Start after ID")]),
           ("limit", Json.obj [("type", Json.str "integer"),
              ("description", Json.str "Maximum results")])])]⟩,
     ⟨"get_symbol_by_id", d2,
      Json.obj [("type", Json.str "object"),
        ("properties", Json.obj
          [("id", Json.obj [("type", Json.str "string"),
              ("description", Json.str "Symbol identifier")])]),
        ("required", Json.arr [Json.str "id"])]⟩,
     ⟨"put_symbol_by_id", d3,
      Json.obj [("type", Json.str "object"),
        ("properties", Json.obj
          [("symbol_id", Json.obj [("type", Json.str "string"),
              ("description", Json.str "Symbol identifier")]),
           ("symbol", symbolSchema)]),
        ("required", Json.arr [Json.str "symbol_id", Json.str "symbol"])]⟩,
     ⟨"list_domains", d4,
      Json.obj [("type", Json.str "object"),
        ("properties", Json.obj [])]⟩]

/-! ## Helper lemmas -/

theorem Json.isNull_eq_false_iff (j : Json) : j.isNull = false ↔ j ≠ Json.null := by
  cases j <;> simp [Json.isNull]

/-- The pieces a separator-led concatenation contributes after the first
item: `sep ++ a₁ ++ sep ++ a₂ ++ ⋯`. -/
def catSep (sep : String) : List String → String
  | [] => ""
  | a :: as => sep ++ a ++ catSep sep as

theorem intercalate_go_eq (sep : String) :
    ∀ (as : List String) (acc : String),
      String.intercalate.go acc sep as = acc ++ catSep sep as
  | [], acc => by simp [String.intercalate.go, catSep]
  | a :: as, acc => by
      rw [String.intercalate.go, intercalate_go_eq sep as (acc ++ sep ++ a)]
      simp [catSep, String.append_assoc]

theorem intercalate_cons (sep a : String) (as : List String) :
    String.intercalate sep (a :: as) = a ++ catSep sep as := by
  rw [String.intercalate, intercalate_go_eq]

theorem dumpObjRest_eq (lvl : Nat) (kvs : List (String × Json)) :
    dumpObjRest lvl kvs =
      catSep ",\n" (kvs.map fun kv =>
        indentStr lvl ++ jsonQuote kv.1 ++ ": " ++ dumpVal lvl kv.2) := by
  induction kvs with
  | nil => rfl
  | cons kv kvs ih =>
      obtain ⟨k, v⟩ := kv
      rw [dumpObjRest, ih]
      simp [catSep, String.append_assoc]

theorem dumpArrRest_eq (lvl : Nat) (xs : List Json) :
    dumpArrRest lvl xs =
      catSep ",\n" (xs.map fun x => indentStr lvl ++ dumpVal lvl x) := by
  induction xs with
  | nil => rfl
  | cons x xs ih =>
      rw [dumpArrRest, ih]
      simp [catSep, String.append_assoc]

theorem dumpObj_eq_intercalate (lvl : Nat) (kvs : List (String × Json)) (h : kvs ≠ []) :
    dumpObj lvl kvs =
      "\x7b\n" ++
        String.intercalate ",\n" (kvs.map fun kv =>
          indentStr (lvl + 1) ++ jsonQuote kv.1 ++ ": " ++ dumpVal (lvl + 1) kv.2) ++
        "\n" ++ indentStr lvl ++ "\x7d" := by
  match kvs with
  | [] => exact absurd rfl h
  | (k, v) :: kvs =>
      rw [dumpObj, dumpObjRest_eq, List.map_cons, intercalate_cons]
      simp [String.append_assoc]

theorem dumpArr_eq_intercalate (lvl : Nat) (xs : List Json) (h : xs ≠ []) :
    dumpArr lvl xs =
      "[\n" ++
        String.intercalate ",\n" (xs.map fun x => indentStr (lvl + 1) ++ dumpVal (lvl + 1) x) ++
        "\n" ++ indentStr lvl ++ "]" := by
  match xs with
  | [] => exact absurd rfl h
  | x :: xs =>
      rw [dumpArr, dumpArrRest_eq, List.map_cons, intercalate_cons]
      simp [String.append_assoc]

theorem jsonEscapeChar_eq_singleton (c : Char) (hval : 32 ≤ c.toNat)
    (hq : c ≠ Char.ofNat 34) (hb : c ≠ Char.ofNat 92) :
    jsonEscapeChar c = String.singleton c := by
  have hlt : ¬ c.toNat < 32 := by omega
  have h10 : c ≠ Char.ofNat 10 := by rintro rfl; exact absurd hval (by decide)
  have h9 : c ≠ Char.ofNat 9 := by rintro rfl; exact absurd hval (by decide)
  have h13 : c ≠ Char.ofNat 13 := by rintro rfl; exact absurd hval (by decide)
  have h8 : c ≠ Char.ofNat 8 := by rintro rfl; exact absurd hval (by decide)
  have h12 : c ≠ Char.ofNat 12 := by rintro rfl; exact absurd hval (by decide)
  simp [jsonEscapeChar, hq, hb, h10, h9, h13, h8, h12, hlt]

theorem jsonQuote_safe (s : String)
    (h : ∀ c ∈ s.data, 32 ≤ c.toNat ∧ c ≠ Char.ofNat 34 ∧ c ≠ Char.ofNat 92) :
    jsonQuote s = "\"" ++ s ++ "\"" := by
  obtain ⟨cs⟩ := s
  rw [jsonQuote]
  congr 1
  congr 1
  induction cs with
  | nil => rfl
  | cons c cs ih =>
      obtain ⟨h1, h2, h3⟩ := h c (List.mem_cons_self c cs)
      have hrest : ∀ x ∈ cs, 32 ≤ x.toNat ∧ x ≠ Char.ofNat 34 ∧ x ≠ Char.ofNat 92 :=
        fun x hx => h x (List.mem_cons_of_mem c hx)
      show jsonEscapeChar c ++ List.foldr (fun c acc => jsonEscapeChar c ++ acc) "" cs =
        String.mk (c :: cs)
      rw [jsonEscapeChar_eq_singleton c h1 h2 h3, ih hrest, String.singleton_eq]
      apply String.ext
      simp

/-! ## Claim theorems -/

/-- C1: whenever the Remote Client raises an HTTP-status error during a
dispatched tool invocation (any of the four wrapped tools, with the
arguments the branch needs present), `call_tool` catches it and returns
successfully with a single text content item whose text is exactly
`"Request to <METHOD> <URL> failed with status <CODE>: <body>"` built from
the failed request and response. -/
theorem spec_claim_C1 (remote : Request → Except HttpError Json) (name : String)
    (args : List (String × Json)) (e : HttpError)
    (hrem : ∀ r, remote r = Except.error e)
    (hname : name = "query_symbols"
      ∨ (name = "get_symbol_by_id" ∧ (args.lookup "id").isSome)
      ∨ (name = "put_symbol_by_id" ∧ (args.lookup "symbol_id").isSome
          ∧ (args.lookup "symbol").isSome)
      ∨ name = "list_domains") :
    call_tool remote name args =
      Except.ok [⟨"text", "Request to " ++ e.method ++ " " ++ e.url ++
        " failed with status " ++ toString e.status ++ ": " ++ e.body⟩] := by
  rcases hname with rfl | ⟨rfl, hid⟩ | ⟨rfl, hsid, hsym⟩ | rfl
  · simp [call_tool, hrem, httpErrorText]
  · obtain ⟨idv, hidv⟩ := Option.isSome_iff_exists.mp hid
    simp [call_tool, hidv, hrem, httpErrorText]
  · obtain ⟨sidv, hsidv⟩ := Option.isSome_iff_exists.mp hsid
    obtain ⟨symv, hsymv⟩ := Option.isSome_iff_exists.mp hsym
    simp [call_tool, hsidv, hsymv, hrem, httpErrorText]
  · simp [call_tool, hrem, httpErrorText]

theorem spec_claim_C1_witness :
    call_tool (fun _ => Except.error ⟨"GET", "http://example.com/domains", 404, "not found"⟩)
        "list_domains" [] =
      Except.ok [⟨"text",
        "Request to GET http://example.com/domains failed with status 404: not found"⟩] :=
  (spec_claim_C1 _ "list_domains" [] ⟨"GET", "http://example.com/domains", 404, "not found"⟩
    (fun _ => rfl) (Or.inr (Or.inr (Or.inr rfl)))).trans (by rfl)

/-- C2: dispatching any tool name other than the four wrapped ones returns
successfully with exactly one text content item reading
`"Unknown tool: <name>"`, for any arguments and any remote behavior. -/
theorem spec_claim_C2 (remote : Request → Except HttpError Json) (name : String)
    (args : List (String × Json))
    (h1 : name ≠ "query_symbols") (h2 : name ≠ "get_symbol_by_id")
    (h3 : name ≠ "put_symbol_by_id") (h4 : name ≠ "list_domains") :
    call_tool remote name args = Except.ok [⟨"text", "Unknown tool: " ++ name⟩] := by
  simp [call_tool, h1, h2, h3, h4]

theorem spec_claim_C2_witness :
    call_tool (fun _ => Except.ok Json.null) "foo" [] =
      Except.ok [⟨"text", "Unknown tool: foo"⟩] :=
  spec_claim_C2 _ "foo" [] (by decide) (by decide) (by decide) (by decide)

/-- C4: a `query_symbols` invocation whose remote call succeeds yields
`"Query results:\n"` followed by the pretty JSON when the payload is truthy,
and `"No symbols returned:\n"` followed by the pretty JSON otherwise —
falsiness is Python truthiness, so payloads like `0` or `false` also take
the `"No symbols returned"` branch. -/
theorem spec_claim_C4 (remote : Request → Except HttpError Json)
    (args : List (String × Json)) (payload : Json)
    (hrem : ∀ r, remote r = Except.ok payload) :
    (payload.isTruthy = true → call_tool remote "query_symbols" args =
      Except.ok [⟨"text", "Query results:\n" ++ format_json_payload payload⟩])
    ∧ (payload.isTruthy = false → call_tool remote "query_symbols" args =
      Except.ok [⟨"text", "No symbols returned:\n" ++ format_json_payload payload⟩]) := by
  constructor <;> intro h <;> simp [call_tool, hrem, h]

theorem spec_claim_C4_witness :
    call_tool (fun _ => Except.ok (Json.num 0)) "query_symbols" [] =
      Except.ok [⟨"text", "No symbols returned:\n0"⟩] :=
  ((spec_claim_C4 (fun _ => Except.ok (Json.num 0)) [] (Json.num 0) (fun _ => rfl)).2
    (by rfl)).trans (by rfl)

/-- C6: a `get_symbol_by_id` invocation whose arguments contain `"id"` and
whose remote call succeeds returns exactly the pretty-printed JSON of the
remote payload, with no prefix. -/
theorem spec_claim_C6 (remote : Request → Except HttpError Json)
    (args : List (String × Json)) (payload idv : Json)
    (hid : args.lookup "id" = some idv)
    (hrem : ∀ r, remote r = Except.ok payload) :
    call_tool remote "get_symbol_by_id" args =
      Except.ok [⟨"text", format_json_payload payload⟩] := by
  simp [call_tool, hid, hrem]

theorem spec_claim_C6_witness :
    call_tool (fun _ => Except.ok (Json.str "v")) "get_symbol_by_id"
        [("id", Json.str "S1")] =
      Except.ok [⟨"text", "\"v\""⟩] :=
  (spec_claim_C6 _ [("id", Json.str "S1")] (Json.str "v") (Json.str "S1") rfl
    (fun _ => rfl)).trans (by rfl)

/-- C7: a `put_symbol_by_id` invocation whose arguments contain
`"symbol_id"` (a string) and `"symbol"` and whose remote call succeeds
returns `"Stored symbol <symbol_id>:\n"` followed by the pretty-printed
JSON of the remote payload. -/
theorem spec_claim_C7 (remote : Request → Except HttpError Json)
    (args : List (String × Json)) (payload : Json) (sid : String) (symv : Json)
    (hsid : args.lookup "symbol_id" = some (Json.str sid))
    (hsym : args.lookup "symbol" = some symv)
    (hrem : ∀ r, remote r = Except.ok payload) :
    call_tool remote "put_symbol_by_id" args =
      Except.ok [⟨"text", "Stored symbol " ++ sid ++ ":\n" ++ format_json_payload payload⟩] := by
  simp [call_tool, hsid, hsym, hrem, pyStr]

theorem spec_claim_C7_witness :
    call_tool (fun _ => Except.ok (Json.bool true)) "put_symbol_by_id"
        [("symbol_id", Json.str "S1"), ("symbol", Json.obj [])] =
      Except.ok [⟨"text", "Stored symbol S1:\ntrue"⟩] :=
  (spec_claim_C7 _ [("symbol_id", Json.str "S1"), ("symbol", Json.obj [])]
    (Json.bool true) "S1" (Json.obj []) rfl rfl (fun _ => rfl)).trans (by rfl)

/-- C8: when a required argument is missing — `"id"` for
`get_symbol_by_id`, or `"symbol_id"`/`"symbol"` for `put_symbol_by_id` —
dispatch raises an uncaught `KeyError` that propagates out of the
invocation instead of being converted to a text result. -/
theorem spec_claim_C8 (remote : Request → Except HttpError Json)
    (args : List (String × Json)) :
    (args.lookup "id" = none →
      call_tool remote "get_symbol_by_id" args = Except.error (PyErr.keyError "id"))
    ∧ (args.lookup "symbol_id" = none →
      call_tool remote "put_symbol_by_id" args = Except.error (PyErr.keyError "symbol_id"))
    ∧ (∀ sidv, args.lookup "symbol_id" = some sidv → args.lookup "symbol" = none →
      call_tool remote "put_symbol_by_id" args = Except.error (PyErr.keyError "symbol")) := by
  refine ⟨fun h => ?_, fun h => ?_, fun sidv h1 h2 => ?_⟩
  · simp [call_tool, h]
  · simp [call_tool, h]
  · simp [call_tool, h1, h2]

theorem spec_claim_C8_witness :
    call_tool (fun _ => Except.ok Json.null) "get_symbol_by_id" [] =
      Except.error (PyErr.keyError "id") :=
  (spec_claim_C8 (fun _ => Except.ok Json.null) []).1 rfl

/-- C3: the query-parameter mapping of the outbound `GET /symbol` request
contains an entry exactly for the optional arguments that are not
`None`/null — absent or null arguments are omitted entirely, never encoded
as a null placeholder, and only the four optional parameters ever appear. -/
theorem spec_claim_C3 (d t l lim : Json) :
    (∀ kv ∈ (SymbolStoreClient.query_symbols d t l lim).params, kv.2 ≠ Json.null)
    ∧ (("symbol_domain", d) ∈ (SymbolStoreClient.query_symbols d t l lim).params ↔
        d ≠ Json.null)
    ∧ (("symbol_tag", t) ∈ (SymbolStoreClient.query_symbols d t l lim).params ↔
        t ≠ Json.null)
    ∧ (("last_symbol_id", l) ∈ (SymbolStoreClient.query_symbols d t l lim).params ↔
        l ≠ Json.null)
    ∧ (("limit", lim) ∈ (SymbolStoreClient.query_symbols d t l lim).params ↔
        lim ≠ Json.null)
    ∧ (∀ kv ∈ (SymbolStoreClient.query_symbols d t l lim).params,
        kv ∈ [("symbol_domain", d), ("symbol_tag", t), ("last_symbol_id", l), ("limit", lim)]) := by
  refine ⟨fun kv hkv => ?_, ?_, ?_, ?_, ?_, fun kv hkv => ?_⟩
  · have := (List.mem_filter.mp hkv).2
    exact (Json.isNull_eq_false_iff kv.2).mp (by simpa using this)
  · simp [SymbolStoreClient.query_symbols, SymbolStoreClient.query_symbols_params,
      List.mem_filter, Json.isNull_eq_false_iff]
  · simp [SymbolStoreClient.query_symbols, SymbolStoreClient.query_symbols_params,
      List.mem_filter, Json.isNull_eq_false_iff]
  · simp [SymbolStoreClient.query_symbols, SymbolStoreClient.query_symbols_params,
      List.mem_filter, Json.isNull_eq_false_iff]
  · simp [SymbolStoreClient.query_symbols, SymbolStoreClient.query_symbols_params,
      List.mem_filter, Json.isNull_eq_false_iff]
  · exact (List.mem_filter.mp hkv).1

theorem spec_claim_C3_witness :
    ("symbol_domain", Json.str "a") ∈
      (SymbolStoreClient.query_symbols (Json.str "a") Json.null Json.null Json.null).params :=
  (spec_claim_C3 (Json.str "a") Json.null Json.null Json.null).2.1.mpr
    (fun h => nomatch h)

/-- C10: the parameter filter drops exactly the `None` values, so non-null
falsy values — the empty string for the string filters, `0` for `limit` —
are still sent, and in general every non-null value is included. -/
theorem spec_claim_C10 (d t l lim : Json) :
    ("symbol_domain", Json.str "") ∈
      (SymbolStoreClient.query_symbols (Json.str "") t l lim).params
    ∧ ("symbol_tag", Json.str "") ∈
      (SymbolStoreClient.query_symbols d (Json.str "") l lim).params
    ∧ ("last_symbol_id", Json.str "") ∈
      (SymbolStoreClient.query_symbols d t (Json.str "") lim).params
    ∧ ("limit", Json.num 0) ∈
      (SymbolStoreClient.query_symbols d t l (Json.num 0)).params
    ∧ (∀ j : Json, j ≠ Json.null →
        ("symbol_domain", j) ∈ (SymbolStoreClient.query_symbols j t l lim).params) := by
  refine ⟨?_, ?_, ?_, ?_, fun j hj => ?_⟩
  · exact List.mem_filter.mpr ⟨by simp, rfl⟩
  · exact List.mem_filter.mpr ⟨by simp, rfl⟩
  · exact List.mem_filter.mpr ⟨by simp, rfl⟩
  · exact List.mem_filter.mpr ⟨by simp, rfl⟩
  · refine List.mem_filter.mpr ⟨by simp, ?_⟩
    simp [(Json.isNull_eq_false_iff j).mpr hj]

theorem spec_claim_C10_witness :
    ("limit", Json.num 0) ∈
      (SymbolStoreClient.query_symbols Json.null Json.null Json.null (Json.num 0)).params
    ∧ ("symbol_domain", Json.bool false) ∈
      (SymbolStoreClient.query_symbols (Json.bool false) Json.null Json.null Json.null).params :=
  ⟨(spec_claim_C10 Json.null Json.null Json.null Json.null).2.2.2.1,
   (spec_claim_C10 Json.null Json.null Json.null Json.null).2.2.2.2
     (Json.bool false) (fun h => nomatch h)⟩

/-- C5: whenever `build_tools_from_spec` succeeds (the spec contains the
required paths), it returns exactly four tool definitions named, in order,
`query_symbols`, `get_symbol_by_id`, `put_symbol_by_id`, `list_domains`;
being a pure function of the spec, the output is deterministic. -/
theorem spec_claim_C5 (spec : Json) (tools : List Tool)
    (h : build_tools_from_spec spec = Except.ok tools) :
    tools.map Tool.name =
      ["query_symbols", "get_symbol_by_id", "put_symbol_by_id", "list_domains"] := by
  simp only [build_tools_from_spec, bind, Except.bind, pure, Except.pure] at h
  repeat' (split at h)
  all_goals first
    | (injection h with h; subst h; rfl)
    | (injection h)

/-- A concrete spec document containing the required paths, for evaluating
`build_tools_from_spec`. -/
def sampleSpec : Json :=
  Json.obj
    [("paths", Json.obj
        [("/symbol", Json.obj [("get", Json.obj [("summary", Json.str "Query symbols.")])]),
         ("/symbol/\x7bid\x7d", Json.obj [("get", Json.obj [])]),
         ("/save_symbol/\x7bsymbol_id\x7d", Json.obj [("put", Json.obj [])]),
         ("/domains", Json.obj [("get", Json.obj [])])]),
     ("components", Json.obj
        [("schemas", Json.obj [("Symbol", Json.obj [("type", Json.str "object")])])])]

/-- The tool list `build_tools_from_spec` produces on `sampleSpec`. -/
def sampleTools : List Tool :=
  (build_tools_from_spec sampleSpec).toOption.getD []

theorem spec_claim_C5_witness :
    sampleTools.map Tool.name =
      ["query_symbols", "get_symbol_by_id", "put_symbol_by_id", "list_domains"] :=
  spec_claim_C5 sampleSpec sampleTools rfl

/-- C9: the pretty-JSON formatter uses 2-space indentation per nesting
level, preserves every character that needs no JSON escape — in particular
every non-ASCII character — literally (`ensure_ascii=False`), and emits
object entries in payload order without re-sorting: a non-empty object
formats as `\x7b`, newline, the `"key": value` lines in source order each
prefixed by two spaces per level, newline, `\x7d` (and arrays likewise). -/
theorem spec_claim_C9 :
    (∀ n : Nat, indentStr n = String.mk (List.replicate (2 * n) ' '))
    ∧ (∀ c : Char, 32 ≤ c.toNat → c ≠ Char.ofNat 34 → c ≠ Char.ofNat 92 →
        jsonEscapeChar c = String.singleton c)
    ∧ (∀ s : String,
        (∀ c ∈ s.data, 32 ≤ c.toNat ∧ c ≠ Char.ofNat 34 ∧ c ≠ Char.ofNat 92) →
        jsonQuote s = "\"" ++ s ++ "\"")
    ∧ (∀ kvs : List (String × Json), kvs ≠ [] →
        format_json_payload (Json.obj kvs) =
          "\x7b\n" ++
            String.intercalate ",\n" (kvs.map fun kv =>
              "  " ++ jsonQuote kv.1 ++ ": " ++ dumpVal 1 kv.2) ++
            "\n\x7d")
    ∧ (∀ xs : List Json, xs ≠ [] →
        format_json_payload (Json.arr xs) =
          "[\n" ++
            String.intercalate ",\n" (xs.map fun x => "  " ++ dumpVal 1 x) ++
            "\n]") := by
  refine ⟨?_, jsonEscapeChar_eq_singleton, jsonQuote_safe, ?_, ?_⟩
  · intro n
    induction n with
    | zero => rfl
    | succ n ih =>
        rw [indentStr, ih]
        apply String.ext
        simp [show 2 * (n + 1) = 2 * n + 2 by ring, List.replicate_add]
  · intro kvs h
    rw [format_json_payload, dumpVal, dumpObj_eq_intercalate 0 kvs h]
    simp [indentStr, String.append_assoc]
  · intro xs h
    rw [format_json_payload, dumpVal, dumpArr_eq_intercalate 0 xs h]
    simp [indentStr, String.append_assoc]

theorem spec_claim_C9_witness :
    indentStr 2 = "    "
    ∧ jsonEscapeChar (Char.ofNat 233) = String.singleton (Char.ofNat 233)
    ∧ jsonQuote "héllo" = "\"héllo\""
    ∧ format_json_payload (Json.obj [("b", Json.num 1), ("a", Json.num 2)]) =
        "\x7b\n  \"b\": 1,\n  \"a\": 2\n\x7d" :=
  ⟨(spec_claim_C9.1 2).trans (by rfl),
   spec_claim_C9.2.1 (Char.ofNat 233) (by decide) (by decide) (by decide),
   (spec_claim_C9.2.2.1 "héllo" (by decide)).trans (by rfl),
   (spec_claim_C9.2.2.2.1 [("b", Json.num 1), ("a", Json.num 2)]
     (List.cons_ne_nil _ _)).trans (by rfl)⟩
